import Mathlib

/-!
# go-books: a shallow embedding of the HTTP handlers and of `category.ValidColumn`

The four handlers of `main.go` are embedded as pure functions over

* a `ResponseWriter` recorder (status line, header map, body),
* a `Client σ`: the operations of the generated ent client the handlers call,
  taken as a parameter over an arbitrary store type `σ`,
* a `Codec`: `encoding/json` decoding and `fmt` rendering, taken as a parameter.

Every handler returns an `Outcome`: the writer, the store, the log of the
client calls it issued (with the context passed to each) and whether it
ended in a run-time panic.
-/

namespace GoBooks

/-! ## Data model -/

/-- A `context.Context`: either `context.Background()`, which is never
cancelled, or the context of one request, which may be cancelled. -/
inductive Context where
  | Background
  | Request (id : Nat) (cancelled : Bool)
  deriving DecidableEq, Repr

/-- Whether the context is done (`ctx.Err() != nil`). -/
def Context.Cancelled : Context → Bool
  | .Background => false
  | .Request _ c => c

/-- Entity `ent.Category`: fields of `schema.Category` plus the id. -/
structure Category where
  ID : Int
  Name : String
  CreatedAt : Nat
  deriving DecidableEq, Repr

/-- Entity `ent.Book`: fields of `schema.Book` plus the id. -/
structure Book where
  ID : Int
  Title : String
  Author : String
  CategoryID : Int
  Year : Int
  CreatedAt : Nat
  deriving DecidableEq, Repr

/-- Errors returned by the ent client. -/
inductive EntError where
  | Validation (name : String) (msg : String)
  | NotFound (label : String)
  | NotSingular (label : String)
  | Constraint (msg : String)
  | Other (msg : String)
  deriving DecidableEq, Repr

/-- The `Error()` method: the message of an error. -/
def EntError.Error : EntError → String
  | .Validation _ msg => msg
  | .NotFound label => "ent: " ++ label ++ " not found"
  | .NotSingular label => "ent: " ++ label ++ " not singular"
  | .Constraint msg => "ent: constraint failed: " ++ msg
  | .Other msg => msg

/-- An incoming `*http.Request`: its own context and its body. -/
structure Request where
  ctx : Context
  Body : String
  deriving DecidableEq, Repr

/-! ## `net/http` response writer -/

def StatusOK : Nat := 200
def StatusBadRequest : Nat := 400
def StatusNotFound : Nat := 404
def StatusInternalServerError : Nat := 500

/-- Recorder for an `http.ResponseWriter`. `header` is the live header map,
`sent` the snapshot of it taken when the status line is written. -/
structure ResponseWriter where
  header : List (String × String)
  wroteHeader : Bool
  status : Nat
  sent : List (String × String)
  body : String
  deriving DecidableEq, Repr

/-- The writer a handler is started with. -/
def ResponseWriter.fresh : ResponseWriter :=
  { header := [], wroteHeader := false, status := 0, sent := [], body := "" }

/-- The call `w.Header().Set(k, v)`. -/
def ResponseWriter.HeaderSet (w : ResponseWriter) (k v : String) : ResponseWriter :=
  { w with header := (k, v) :: w.header.filter (fun p => p.1 != k) }

/-- The call `w.WriteHeader(code)`: only the first call sets the status. -/
def ResponseWriter.WriteHeader (w : ResponseWriter) (code : Nat) : ResponseWriter :=
  if w.wroteHeader then w
  else { w with wroteHeader := true, status := code, sent := w.header }

/-- The call `w.Write(b)`: writes the status line with 200 if none was written. -/
def ResponseWriter.Write (w : ResponseWriter) (b : String) : ResponseWriter :=
  let w1 := if w.wroteHeader then w else w.WriteHeader StatusOK
  { w1 with body := w1.body ++ b }

/-- The status code the client receives once the handler has returned. -/
def ResponseWriter.Code (w : ResponseWriter) : Nat :=
  if w.wroteHeader then w.status else StatusOK

/-- The call `http.Error(w, error, code)`: plain-text headers, the status
line, then the message printed with `Fprintln`. -/
def httpError (w : ResponseWriter) (error : String) (code : Nat) : ResponseWriter :=
  let w1 := w.HeaderSet "Content-Type" "text/plain; charset=utf-8"
  let w2 := w1.HeaderSet "X-Content-Type-Options" "nosniff"
  let w3 := w2.WriteHeader code
  w3.Write (error ++ "\n")

/-! ## `ent/category/category.go` -/

namespace category

def FieldID : String := "id"
def FieldName : String := "name"
def FieldCreatedAt : String := "created_at"
def EdgeBooks : String := "books"
def Label : String := "category"

/-- All SQL columns for category fields. -/
def Columns : List String := [FieldID, FieldName, FieldCreatedAt]

/-- The loop `for i := range Columns` of `ValidColumn`, over the indices
still to visit. -/
def ValidColumnLoop (column : String) : List Nat → Bool
  | [] => false
  | i :: rest =>
    if column == Columns.getD i "" then true else ValidColumnLoop column rest

/-- Reports if the column name is valid (part of the table columns). -/
def ValidColumn (column : String) : Bool :=
  ValidColumnLoop column (List.range Columns.length)

end category

/-! ## The ent client, as seen from the handlers -/

/-- Builder `*ent.CategoryCreate`: the fields set so far. -/
structure CategoryCreate where
  name : Option String
  deriving DecidableEq, Repr

/-- Builder `*ent.BookCreate`: the fields set so far and the ids added on
the `category` edge. -/
structure BookCreate where
  title : Option String
  year : Option Int
  author : Option String
  category_id : Option Int
  categoryIDs : List Int
  deriving DecidableEq, Repr

def CategoryCreate.new : CategoryCreate := { name := none }

def CategoryCreate.SetName (b : CategoryCreate) (s : String) : CategoryCreate :=
  { b with name := some s }

def BookCreate.new : BookCreate :=
  { title := none, year := none, author := none, category_id := none, categoryIDs := [] }

def BookCreate.SetTitle (b : BookCreate) (s : String) : BookCreate :=
  { b with title := some s }

def BookCreate.SetYear (b : BookCreate) (i : Int) : BookCreate :=
  { b with year := some i }

def BookCreate.SetAuthor (b : BookCreate) (s : String) : BookCreate :=
  { b with author := some s }

def BookCreate.SetCategoryID (b : BookCreate) (i : Int) : BookCreate :=
  { b with category_id := some i }

/-- Go `AddCategory(c ...*Category)`: adds the id of each given category to
the `category` edge. -/
def BookCreate.AddCategory (b : BookCreate) (c : Category) : BookCreate :=
  { b with categoryIDs := b.categoryIDs ++ [c.ID] }

/-- The operations of `*ent.Client` used by the handlers. Each takes the
context and the store and returns the Go result pair and the new store. -/
structure Client (σ : Type) where
  CategoryQueryAll : Context → σ → (List Category × Option EntError) × σ
  CategoryGet : Context → Int → σ → (Option Category × Option EntError) × σ
  CategoryCreateSave : Context → CategoryCreate → σ → (Option Category × Option EntError) × σ
  BookQueryAll : Context → σ → (List Book × Option EntError) × σ
  BookCreateSave : Context → BookCreate → σ → (Option Book × Option EntError) × σ

/-- One client call, as issued by a handler. -/
inductive Call where
  | CategoryQueryAll (ctx : Context)
  | CategoryGet (ctx : Context) (id : Int)
  | CategoryCreateSave (ctx : Context) (b : CategoryCreate)
  | BookQueryAll (ctx : Context)
  | BookCreateSave (ctx : Context) (b : BookCreate)
  deriving DecidableEq, Repr

/-- The context a call was issued under. -/
def Call.ctx : Call → Context
  | .CategoryQueryAll c => c
  | .CategoryGet c _ => c
  | .CategoryCreateSave c _ => c
  | .BookQueryAll c => c
  | .BookCreateSave c _ => c

/-- Whether a call is an insert of a Book. -/
def Call.IsBookInsert : Call → Bool
  | .BookCreateSave _ _ => true
  | _ => false

/-- The `encoding/json` decoder on request bodies and the `fmt` rendering
of entities with `%v`. -/
structure Codec where
  DecodeCategory : String → Except String Category
  DecodeBook : String → Except String Book
  SprintCategories : List Category → String
  SprintCategory : Option Category → String
  SprintBooks : List Book → String
  SprintBook : Option Book → String

/-- What a handler did: the response, the store, the client calls in
order, and whether it ended in a nil pointer dereference. -/
structure Outcome (σ : Type) where
  w : ResponseWriter
  store : σ
  calls : List Call
  panicked : Bool

/-! ## `main.go`: the handlers -/

def ListCategoriesHandler {σ : Type} (k : Codec) (client : Client σ)
    (w : ResponseWriter) (_r : Request) (s : σ) : Outcome σ :=
  let ctx := Context.Background
  match client.CategoryQueryAll ctx s with
  | ((categories, err), s1) =>
    match err with
    | some e =>
      let w1 := w.WriteHeader StatusInternalServerError
      let w2 := w1.Write e.Error
      { w := w2, store := s1, calls := [Call.CategoryQueryAll ctx], panicked := false }
    | none =>
      let w1 := w.HeaderSet "Content-Type" "application/json"
      let w2 := w1.Write (k.SprintCategories categories)
      { w := w2, store := s1, calls := [Call.CategoryQueryAll ctx], panicked := false }

def CreateCategoryHandler {σ : Type} (k : Codec) (client : Client σ)
    (w : ResponseWriter) (r : Request) (s : σ) : Outcome σ :=
  match k.DecodeCategory r.Body with
  | .error err =>
    { w := httpError w err StatusBadRequest, store := s, calls := [], panicked := false }
  | .ok body =>
    let ctx := Context.Background
    let b := CategoryCreate.new.SetName body.Name
    match client.CategoryCreateSave ctx b s with
    | ((category, err), s1) =>
      match err with
      | some e =>
        let w1 := w.WriteHeader StatusInternalServerError
        let w2 := w1.Write e.Error
        { w := w2, store := s1, calls := [Call.CategoryCreateSave ctx b], panicked := false }
      | none =>
        let w1 := w.HeaderSet "Content-Type" "application/json"
        let w2 := w1.Write (k.SprintCategory category)
        { w := w2, store := s1, calls := [Call.CategoryCreateSave ctx b], panicked := false }

def ListBooksHandler {σ : Type} (k : Codec) (client : Client σ)
    (w : ResponseWriter) (_r : Request) (s : σ) : Outcome σ :=
  let ctx := Context.Background
  match client.BookQueryAll ctx s with
  | ((books, err), s1) =>
    match err with
    | some e =>
      let w1 := w.WriteHeader StatusInternalServerError
      let w2 := w1.Write e.Error
      { w := w2, store := s1, calls := [Call.BookQueryAll ctx], panicked := false }
    | none =>
      let w1 := w.HeaderSet "Content-Type" "application/json"
      let w2 := w1.Write (k.SprintBooks books)
      { w := w2, store := s1, calls := [Call.BookQueryAll ctx], panicked := false }

/-- The body of the 404 reply:
`fmt.Sprintf("Category with Id %v Not Found: %v", id, err)`. -/
def notFoundMessage (id : Int) (e : EntError) : String :=
  "Category with Id " ++ toString id ++ " Not Found: " ++ e.Error

def CreateBookHandler {σ : Type} (k : Codec) (client : Client σ)
    (w : ResponseWriter) (r : Request) (s : σ) : Outcome σ :=
  match k.DecodeBook r.Body with
  | .error err =>
    { w := httpError w err StatusBadRequest, store := s, calls := [], panicked := false }
  | .ok body =>
    let ctx := Context.Background
    match client.CategoryGet ctx body.CategoryID s with
    | ((category, err), s1) =>
      -- `if err != nil { ... }` has no `return`: control falls through
      let w1 :=
        match err with
        | some e => (w.WriteHeader StatusNotFound).Write (notFoundMessage body.CategoryID e)
        | none => w
      let calls1 := [Call.CategoryGet ctx body.CategoryID]
      let b0 := ((BookCreate.new.SetTitle body.Title).SetYear body.Year).SetAuthor body.Author
      match category with
      | none =>
        -- `category.ID` on a nil `*ent.Category`
        { w := w1, store := s1, calls := calls1, panicked := true }
      | some cat =>
        let b := (b0.SetCategoryID cat.ID).AddCategory cat
        match client.BookCreateSave ctx b s1 with
        | ((book, err2), s2) =>
          let calls2 := calls1 ++ [Call.BookCreateSave ctx b]
          match err2 with
          | some e =>
            let w2 := w1.WriteHeader StatusInternalServerError
            let w3 := w2.Write e.Error
            { w := w3, store := s2, calls := calls2, panicked := false }
          | none =>
            let w2 := w1.HeaderSet "Content-Type" "application/json"
            let w3 := w2.Write (k.SprintBook book)
            { w := w3, store := s2, calls := calls2, panicked := false }

/-! ## The relational store behind the client -/

/-- Modelled from the spec: the database (§3, §6) is not part of the
sources. Three tables `categories`, `books` and `category_books`, the two
id sequences, the clock used for `created_at`, and whether the engine is
reachable. -/
structure DB where
  Up : Bool
  Now : Nat
  categories : List Category
  books : List Book
  category_books : List (Int × Int)
  nextCategoryID : Int
  nextBookID : Int
  deriving DecidableEq, Repr

/-- Modelled from the spec: the empty database of scenarios S1 and S5,
right after migration. -/
def DB.empty : DB :=
  { Up := true, Now := 0, categories := [], books := [], category_books := [],
    nextCategoryID := 1, nextBookID := 1 }

/-- Modelled from the spec: a database round-trip fails when the context
passed is cancelled (§5) or the engine is unreachable (§7, StorageError). -/
def DB.RoundTrip (db : DB) (ctx : Context) : Option EntError :=
  if ctx.Cancelled then some (.Other "context canceled")
  else if db.Up then none
  else some (.Other "failed to connect to database")

/-- Modelled from the spec: validator `NotEmpty` of a string field
(`schema.Category.Fields`, `schema.Book.Fields`). -/
def NotEmpty (field : String) (v : String) : Option EntError :=
  if v.length = 0 then
    some (.Validation field
      ("ent: validator failed for field \"" ++ field ++ "\": value is less than the required length"))
  else none

/-- Modelled from the spec: validator `Positive` of an int field
(`schema.Book.Fields`, field `year`). -/
def Positive (field : String) (v : Int) : Option EntError :=
  if v ≤ 0 then
    some (.Validation field
      ("ent: validator failed for field \"" ++ field ++ "\": value out of range"))
  else none

/-- Modelled from the spec: `category.NameValidator`, "called by the
builders before save", is a variable in `ent/category/category.go` that is
assigned by generated code not among the sources; `schema.Category` declares
the field `name` as `NotEmpty`. -/
def category.NameValidator (v : String) : Option EntError :=
  NotEmpty "name" v

/-- Modelled from the spec: a required field that was never set. -/
def missingField (field : String) : EntError :=
  .Validation field ("ent: missing required field \"" ++ field ++ "\"")

/-- Modelled from the spec: `ListCategories(ctx)` of §4.2 (generated
`CategoryQuery.All`): the full set or an error. -/
def DB.CategoryQueryAll (ctx : Context) (db : DB) : (List Category × Option EntError) × DB :=
  match db.RoundTrip ctx with
  | some e => (([], some e), db)
  | none => ((db.categories, none), db)

/-- Modelled from the spec: `ListBooks(ctx)` of §4.2 (generated
`BookQuery.All`): the full set or an error. -/
def DB.BookQueryAll (ctx : Context) (db : DB) : (List Book × Option EntError) × DB :=
  match db.RoundTrip ctx with
  | some e => (([], some e), db)
  | none => ((db.books, none), db)

/-- Modelled from the spec: `GetCategory(ctx, id)` of §4.2 (generated
`CategoryClient.Get`): the category with that id, or a nil category and
NotFound if no such id. -/
def DB.CategoryGet (ctx : Context) (id : Int) (db : DB) : (Option Category × Option EntError) × DB :=
  match db.RoundTrip ctx with
  | some e => ((none, some e), db)
  | none =>
    match (db.categories.filter (fun c => c.ID == id)).take 2 with
    | [c] => ((some c, none), db)
    | [] => ((none, some (.NotFound category.Label)), db)
    | _ => ((none, some (.NotSingular category.Label)), db)

/-- Modelled from the spec: the pre-insert checks of `CreateCategory`
(§4.1, §4.2): `name` is required and passes `NameValidator`. -/
def CategoryCreate.check (b : CategoryCreate) : Option EntError :=
  match b.name with
  | none => some (missingField "name")
  | some v => category.NameValidator v

/-- Modelled from the spec: `CreateCategory(ctx, name)` of §4.2 (generated
`CategoryCreate.Save`): ValidationError if the name is empty, ConflictError
if it duplicates an existing row (unique constraint on `name`), else the
row is inserted with `created_at` = current time. -/
def DB.CategoryCreateSave (ctx : Context) (b : CategoryCreate) (db : DB) :
    (Option Category × Option EntError) × DB :=
  match b.check with
  | some e => ((none, some e), db)
  | none =>
    match db.RoundTrip ctx with
    | some e => ((none, some e), db)
    | none =>
      let name := b.name.getD ""
      if db.categories.any (fun c => c.Name == name) then
        ((none, some (.Constraint
          "duplicate key value violates unique constraint \"categories_name_key\"")), db)
      else
        let c : Category := { ID := db.nextCategoryID, Name := name, CreatedAt := db.Now }
        ((some c, none),
          { db with categories := db.categories ++ [c], nextCategoryID := db.nextCategoryID + 1 })

/-- Modelled from the spec: the pre-insert checks of `CreateBook` (§4.2
step 1), in the order of `schema.Book.Fields`: `title` and `author` are
`NotEmpty`, `category_id` is required, `year` is `Positive`. -/
def BookCreate.check (b : BookCreate) : Option EntError :=
  match b.title with
  | none => some (missingField "title")
  | some title =>
    match NotEmpty "title" title with
    | some e => some e
    | none =>
      match b.author with
      | none => some (missingField "author")
      | some author =>
        match NotEmpty "author" author with
        | some e => some e
        | none =>
          match b.category_id with
          | none => some (missingField "category_id")
          | some _ =>
            match b.year with
            | none => some (missingField "year")
            | some year => Positive "year" year

/-- Modelled from the spec: `CreateBook` of §4.2 steps 1, 3 and 4
(generated `BookCreate.Save`): validate, insert the Book row with
`created_at` = current time, then one `category_books` row per id added on
the `category` edge; the whole is one transaction, which fails if an id on
the edge is not a Category. -/
def DB.BookCreateSave (ctx : Context) (b : BookCreate) (db : DB) :
    (Option Book × Option EntError) × DB :=
  match b.check with
  | some e => ((none, some e), db)
  | none =>
    match db.RoundTrip ctx with
    | some e => ((none, some e), db)
    | none =>
      if b.categoryIDs.all (fun cid => db.categories.any (fun c => c.ID == cid)) then
        let bk : Book :=
          { ID := db.nextBookID, Title := b.title.getD "", Author := b.author.getD "",
            CategoryID := b.category_id.getD 0, Year := b.year.getD 0, CreatedAt := db.Now }
        ((some bk, none),
          { db with
            books := db.books ++ [bk],
            category_books := db.category_books ++ b.categoryIDs.map (fun cid => (cid, bk.ID)),
            nextBookID := db.nextBookID + 1 })
      else
        ((none, some (.Constraint
          "insert or update on table \"category_books\" violates foreign key constraint")), db)

/-- Modelled from the spec: the generated ent client (package `ent`) over
the database, i.e. the entity access layer of §4.2. -/
def entClient : Client DB :=
  { CategoryQueryAll := DB.CategoryQueryAll
    CategoryGet := DB.CategoryGet
    CategoryCreateSave := DB.CategoryCreateSave
    BookQueryAll := DB.BookQueryAll
    BookCreateSave := DB.BookCreateSave }

/-! ## A codec for the request bodies of the scenarios -/

/-- Rendering of a category with `%v` (its `String` method). -/
def Category.String (c : Category) : String :=
  "Category(id=" ++ toString c.ID ++ ", name=" ++ c.Name ++
    ", created_at=" ++ toString c.CreatedAt ++ ")"

/-- Rendering of a book with `%v` (its `String` method). -/
def Book.String (b : Book) : String :=
  "Book(id=" ++ toString b.ID ++ ", title=" ++ b.Title ++ ", author=" ++ b.Author ++
    ", category_id=" ++ toString b.CategoryID ++ ", year=" ++ toString b.Year ++
    ", created_at=" ++ toString b.CreatedAt ++ ")"

/-- Body of `POST /categories` in scenarios S1 and S2. -/
def bodyFiction : String := "\x7b\"name\":\"fiction\"\x7d"

/-- Body of `POST /categories` in scenario S3. -/
def bodyEmptyName : String := "\x7b\"name\":\"\"\x7d"

/-- Body of `POST /` in scenario S4. -/
def bodyDune : String :=
  "\x7b\"title\":\"Dune\",\"author\":\"Herbert\",\"year\":1965,\"category_id\":1\x7d"

/-- Body of `POST /` in scenario S5. -/
def bodyMissingCategory : String :=
  "\x7b\"title\":\"X\",\"author\":\"Y\",\"year\":2020,\"category_id\":999\x7d"

/-- Body of `POST /` in scenario S6. -/
def bodyInvalidYear : String :=
  "\x7b\"title\":\"X\",\"author\":\"Y\",\"year\":-1,\"category_id\":1\x7d"

/-- What `json.Decoder.Decode` returns into an `ent.Category` on the bodies
above; any other body is treated as one that fails to decode. -/
def scenarioDecodeCategory (s : String) : Except String Category :=
  if s = bodyFiction then .ok { ID := 0, Name := "fiction", CreatedAt := 0 }
  else if s = bodyEmptyName then .ok { ID := 0, Name := "", CreatedAt := 0 }
  else if s = "" then .error "EOF"
  else .error "invalid character"

/-- What `json.Decoder.Decode` returns into an `ent.Book` on the bodies
above; any other body is treated as one that fails to decode. -/
def scenarioDecodeBook (s : String) : Except String Book :=
  if s = bodyDune then
    .ok { ID := 0, Title := "Dune", Author := "Herbert", CategoryID := 1, Year := 1965, CreatedAt := 0 }
  else if s = bodyMissingCategory then
    .ok { ID := 0, Title := "X", Author := "Y", CategoryID := 999, Year := 2020, CreatedAt := 0 }
  else if s = bodyInvalidYear then
    .ok { ID := 0, Title := "X", Author := "Y", CategoryID := 1, Year := -1, CreatedAt := 0 }
  else if s = "" then .error "EOF"
  else .error "invalid character"

/-- The codec used to run the scenarios of the spec. -/
def scenarioCodec : Codec :=
  { DecodeCategory := scenarioDecodeCategory
    DecodeBook := scenarioDecodeBook
    SprintCategories := fun cs => "[" ++ " ".intercalate (cs.map Category.String) ++ "]"
    SprintCategory := fun c => match c with
      | some c => c.String
      | none => "<nil>"
    SprintBooks := fun bs => "[" ++ " ".intercalate (bs.map Book.String) ++ "]"
    SprintBook := fun b => match b with
      | some b => b.String
      | none => "<nil>" }

/-- The database after scenario S1: one category `fiction` with id 1. -/
def DB.afterS1 : DB :=
  { DB.empty with
    categories := [{ ID := 1, Name := "fiction", CreatedAt := 0 }], nextCategoryID := 2 }

/-! ## Requests and stores of the scenarios -/

/-- A database whose engine is unreachable. -/
def DB.down : DB := { DB.afterS1 with Up := false }

/-- A request whose own context has been cancelled (the client went away). -/
def cancelledRequest : Request := { ctx := Context.Request 1 true, Body := "" }

/-- The request of scenario S5: a book whose category does not exist. -/
def requestS5 : Request := { ctx := Context.Request 5 false, Body := bodyMissingCategory }

/-- The builder `CreateBookHandler` hands to `Save` for a decoded body and
the category the lookup returned. -/
def bookBuilder (body : Book) (cat : Category) : BookCreate :=
  { title := some body.Title, year := some body.Year, author := some body.Author,
    category_id := some cat.ID, categoryIDs := [cat.ID] }

/-- The request of scenario S3: a category with an empty name. -/
def requestS3 : Request := { ctx := Context.Request 3 false, Body := bodyEmptyName }

/-- The request of scenarios S1 and S2: the category `fiction`. -/
def requestS2 : Request := { ctx := Context.Request 2 false, Body := bodyFiction }

/-- The request of scenario S6: a book with year -1 in category 1. -/
def requestS6 : Request := { ctx := Context.Request 6 false, Body := bodyInvalidYear }

/-- The request of scenario S4: the book `Dune` in category 1. -/
def requestS4 : Request := { ctx := Context.Request 4 false, Body := bodyDune }

end GoBooks

/-! ## Theorems -/

namespace GoBooks

/-! ### The response writer -/

theorem code_writeHeader_write (c : Nat) (b : String) :
    ((ResponseWriter.fresh.WriteHeader c).Write b).Code = c ∧
      ((ResponseWriter.fresh.WriteHeader c).Write b).body = "" ++ b := by
  exact ⟨rfl, rfl⟩

theorem code_headerSet_write (key v b : String) :
    ((ResponseWriter.fresh.HeaderSet key v).Write b).Code = StatusOK := rfl

theorem code_httpError (e : String) (c : Nat) :
    (httpError ResponseWriter.fresh e c).Code = c ∧
      (httpError ResponseWriter.fresh e c).body = "" ++ (e ++ "\n") := by
  exact ⟨rfl, rfl⟩

theorem string_empty_append (b : String) : "" ++ b = b := by
  apply String.ext
  simp

/-! ### `category.ValidColumn` -/

theorem ValidColumnLoop_iff (column : String) (l : List Nat) :
    category.ValidColumnLoop column l = true ↔
      ∃ i ∈ l, column = category.Columns.getD i "" := by
  induction l with
  | nil => simp [category.ValidColumnLoop]
  | cons i rest ih =>
    unfold category.ValidColumnLoop
    by_cases h : column = category.Columns.getD i ""
    · simp [h]
    · simp [h, ih]

/-- Claim C9: `category.ValidColumn s` is true exactly when `s` is an entry
of `Columns`, that is exactly when `s` is "id", "name" or "created_at";
the comparison is case-sensitive, and the edge name "books" and the empty
string are rejected. -/
theorem ValidColumn_iff_mem_Columns :
    (∀ s : String, category.ValidColumn s = true ↔ s ∈ category.Columns) ∧
    (∀ s : String, category.ValidColumn s = true ↔
      (s = "id" ∨ s = "name" ∨ s = "created_at")) ∧
    category.ValidColumn "books" = false ∧
    category.ValidColumn "" = false ∧
    category.ValidColumn "ID" = false ∧
    category.ValidColumn "Name" = false ∧
    category.ValidColumn "Created_At" = false := by
  have key : ∀ s : String, category.ValidColumn s = true ↔
      (s = "id" ∨ s = "name" ∨ s = "created_at") := by
    intro s
    unfold category.ValidColumn
    rw [ValidColumnLoop_iff]
    constructor
    · rintro ⟨i, hi, rfl⟩
      have hi3 : i < 3 := by simpa [category.Columns] using hi
      interval_cases i <;> simp [category.Columns, category.FieldID, category.FieldName,
        category.FieldCreatedAt]
    · rintro (rfl | rfl | rfl)
      · exact ⟨0, by decide, rfl⟩
      · exact ⟨1, by decide, rfl⟩
      · exact ⟨2, by decide, rfl⟩
  refine ⟨?_, key, ?_, ?_, ?_, ?_, ?_⟩
  · intro s
    rw [key]
    simp [category.Columns, category.FieldID, category.FieldName, category.FieldCreatedAt]
  all_goals decide

/-! ### The list endpoints -/

/-- Claim C7: for `ListCategoriesHandler` and `ListBooksHandler`, when the
query-all operation the handler issues returns an error `e`, the status is
500 and the body is exactly the message of `e`; when it succeeds the status
is 200 and the body is the rendering of the full result. -/
theorem list_handlers_status {σ : Type} (k : Codec) (client : Client σ)
    (r : Request) (s : σ) :
    (∀ cs e s1, client.CategoryQueryAll Context.Background s = ((cs, some e), s1) →
      (ListCategoriesHandler k client ResponseWriter.fresh r s).w.Code = 500 ∧
      (ListCategoriesHandler k client ResponseWriter.fresh r s).w.body = e.Error) ∧
    (∀ cs s1, client.CategoryQueryAll Context.Background s = ((cs, none), s1) →
      (ListCategoriesHandler k client ResponseWriter.fresh r s).w.Code = 200 ∧
      (ListCategoriesHandler k client ResponseWriter.fresh r s).w.body =
        k.SprintCategories cs) ∧
    (∀ bs e s1, client.BookQueryAll Context.Background s = ((bs, some e), s1) →
      (ListBooksHandler k client ResponseWriter.fresh r s).w.Code = 500 ∧
      (ListBooksHandler k client ResponseWriter.fresh r s).w.body = e.Error) ∧
    (∀ bs s1, client.BookQueryAll Context.Background s = ((bs, none), s1) →
      (ListBooksHandler k client ResponseWriter.fresh r s).w.Code = 200 ∧
      (ListBooksHandler k client ResponseWriter.fresh r s).w.body = k.SprintBooks bs) := by
  refine ⟨?_, ?_, ?_, ?_⟩
  · intro cs e s1 h
    simp only [ListCategoriesHandler, h]
    exact ⟨rfl, string_empty_append _⟩
  · intro cs s1 h
    simp only [ListCategoriesHandler, h]
    exact ⟨rfl, string_empty_append _⟩
  · intro bs e s1 h
    simp only [ListBooksHandler, h]
    exact ⟨rfl, string_empty_append _⟩
  · intro bs s1 h
    simp only [ListBooksHandler, h]
    exact ⟨rfl, string_empty_append _⟩

/-- Witness for C7: both list handlers on an unreachable database (500,
the driver message) and on the database after S1 (200). -/
theorem list_handlers_status_witness :
    ((ListCategoriesHandler scenarioCodec entClient ResponseWriter.fresh
        ⟨Context.Request 1 false, ""⟩ DB.down).w.Code = 500 ∧
      (ListCategoriesHandler scenarioCodec entClient ResponseWriter.fresh
        ⟨Context.Request 1 false, ""⟩ DB.down).w.body = "failed to connect to database") ∧
    ((ListCategoriesHandler scenarioCodec entClient ResponseWriter.fresh
        ⟨Context.Request 1 false, ""⟩ DB.afterS1).w.Code = 200 ∧
      (ListCategoriesHandler scenarioCodec entClient ResponseWriter.fresh
        ⟨Context.Request 1 false, ""⟩ DB.afterS1).w.body =
          "[Category(id=1, name=fiction, created_at=0)]") ∧
    ((ListBooksHandler scenarioCodec entClient ResponseWriter.fresh
        ⟨Context.Request 1 false, ""⟩ DB.down).w.Code = 500 ∧
      (ListBooksHandler scenarioCodec entClient ResponseWriter.fresh
        ⟨Context.Request 1 false, ""⟩ DB.down).w.body = "failed to connect to database") ∧
    ((ListBooksHandler scenarioCodec entClient ResponseWriter.fresh
        ⟨Context.Request 1 false, ""⟩ DB.afterS1).w.Code = 200 ∧
      (ListBooksHandler scenarioCodec entClient ResponseWriter.fresh
        ⟨Context.Request 1 false, ""⟩ DB.afterS1).w.body = "[]") :=
  ⟨(list_handlers_status scenarioCodec entClient ⟨Context.Request 1 false, ""⟩ DB.down).1
      [] (EntError.Other "failed to connect to database") DB.down rfl,
    (list_handlers_status scenarioCodec entClient ⟨Context.Request 1 false, ""⟩ DB.afterS1).2.1
      DB.afterS1.categories DB.afterS1 rfl,
    (list_handlers_status scenarioCodec entClient ⟨Context.Request 1 false, ""⟩ DB.down).2.2.1
      [] (EntError.Other "failed to connect to database") DB.down rfl,
    (list_handlers_status scenarioCodec entClient ⟨Context.Request 1 false, ""⟩ DB.afterS1).2.2.2
      [] DB.afterS1 rfl⟩

/-! ### Bodies that fail to decode -/

/-- Claim C10: when decoding the request body returns an error `e`,
`CreateCategoryHandler` and `CreateBookHandler` reply exactly as
`http.Error(w, e, 400)` does (status 400, body the message `e` terminated
by a line feed), issue no client call at all and leave the store as it
was. -/
theorem decode_failure_touches_nothing {σ : Type} (k : Codec) (client : Client σ)
    (r : Request) (s : σ) (e : String) :
    (k.DecodeCategory r.Body = Except.error e →
      (CreateCategoryHandler k client ResponseWriter.fresh r s).w.Code = 400 ∧
      (CreateCategoryHandler k client ResponseWriter.fresh r s).w =
        httpError ResponseWriter.fresh e StatusBadRequest ∧
      (CreateCategoryHandler k client ResponseWriter.fresh r s).w.body = e ++ "\n" ∧
      (CreateCategoryHandler k client ResponseWriter.fresh r s).calls = [] ∧
      (CreateCategoryHandler k client ResponseWriter.fresh r s).store = s ∧
      (CreateCategoryHandler k client ResponseWriter.fresh r s).panicked = false) ∧
    (k.DecodeBook r.Body = Except.error e →
      (CreateBookHandler k client ResponseWriter.fresh r s).w.Code = 400 ∧
      (CreateBookHandler k client ResponseWriter.fresh r s).w =
        httpError ResponseWriter.fresh e StatusBadRequest ∧
      (CreateBookHandler k client ResponseWriter.fresh r s).w.body = e ++ "\n" ∧
      (CreateBookHandler k client ResponseWriter.fresh r s).calls = [] ∧
      (CreateBookHandler k client ResponseWriter.fresh r s).store = s ∧
      (CreateBookHandler k client ResponseWriter.fresh r s).panicked = false) := by
  constructor
  · intro h
    have hout : CreateCategoryHandler k client ResponseWriter.fresh r s =
        { w := httpError ResponseWriter.fresh e StatusBadRequest, store := s, calls := [],
          panicked := false } := by
      simp only [CreateCategoryHandler, h]
    rw [hout]
    exact ⟨rfl, rfl, string_empty_append _, rfl, rfl, rfl⟩
  · intro h
    have hout : CreateBookHandler k client ResponseWriter.fresh r s =
        { w := httpError ResponseWriter.fresh e StatusBadRequest, store := s, calls := [],
          panicked := false } := by
      simp only [CreateBookHandler, h]
    rw [hout]
    exact ⟨rfl, rfl, string_empty_append _, rfl, rfl, rfl⟩

/-- Witness for C10: an empty request body, which the decoder rejects with
`EOF`, sent to both create handlers. -/
theorem decode_failure_touches_nothing_witness :
    scenarioCodec.DecodeCategory "" = Except.error "EOF" ∧
    scenarioCodec.DecodeBook "" = Except.error "EOF" ∧
    (CreateCategoryHandler scenarioCodec entClient ResponseWriter.fresh
      ⟨Context.Request 1 false, ""⟩ DB.afterS1).w.Code = 400 ∧
    (CreateCategoryHandler scenarioCodec entClient ResponseWriter.fresh
      ⟨Context.Request 1 false, ""⟩ DB.afterS1).calls = [] ∧
    (CreateBookHandler scenarioCodec entClient ResponseWriter.fresh
      ⟨Context.Request 1 false, ""⟩ DB.afterS1).w.body = "EOF" ++ "\n" ∧
    (CreateBookHandler scenarioCodec entClient ResponseWriter.fresh
      ⟨Context.Request 1 false, ""⟩ DB.afterS1).store = DB.afterS1 :=
  ⟨rfl, rfl,
    ((decode_failure_touches_nothing scenarioCodec entClient
      ⟨Context.Request 1 false, ""⟩ DB.afterS1 "EOF").1 rfl).1,
    ((decode_failure_touches_nothing scenarioCodec entClient
      ⟨Context.Request 1 false, ""⟩ DB.afterS1 "EOF").1 rfl).2.2.2.1,
    ((decode_failure_touches_nothing scenarioCodec entClient
      ⟨Context.Request 1 false, ""⟩ DB.afterS1 "EOF").2 rfl).2.2.1,
    ((decode_failure_touches_nothing scenarioCodec entClient
      ⟨Context.Request 1 false, ""⟩ DB.afterS1 "EOF").2 rfl).2.2.2.2.1⟩

/-! ### The context passed to the store -/

/-- Counterexample to C8 as stated: for a request whose context is
cancelled, the one store operation `ListCategoriesHandler` issues runs under
`context.Background()`, not under the request context, and is answered with
200, although the same query under the request context would have been
aborted. -/
theorem request_context_not_passed :
    ¬ (∀ call ∈ (ListCategoriesHandler scenarioCodec entClient ResponseWriter.fresh
          cancelledRequest DB.afterS1).calls, call.ctx = cancelledRequest.ctx) ∧
    (ListCategoriesHandler scenarioCodec entClient ResponseWriter.fresh
      cancelledRequest DB.afterS1).calls = [Call.CategoryQueryAll Context.Background] ∧
    (ListCategoriesHandler scenarioCodec entClient ResponseWriter.fresh
      cancelledRequest DB.afterS1).w.Code = 200 ∧
    (entClient.CategoryQueryAll cancelledRequest.ctx DB.afterS1).1.2 =
      some (EntError.Other "context canceled") := by
  refine ⟨?_, rfl, rfl, rfl⟩
  intro h
  have h1 := h (Call.CategoryQueryAll Context.Background) (by decide)
  exact absurd h1 (by decide)

/-- Claim C8, amended: each of the four handlers passes `context.Background()`
to every store operation it issues, whatever the request, and its outcome
does not depend on the request context at all. -/
theorem handlers_pass_background_context {σ : Type} (k : Codec) (client : Client σ)
    (r : Request) (s : σ) :
    ((ListCategoriesHandler k client ResponseWriter.fresh r s).calls.all
        (fun call => call.ctx == Context.Background) = true ∧
      (CreateCategoryHandler k client ResponseWriter.fresh r s).calls.all
        (fun call => call.ctx == Context.Background) = true ∧
      (ListBooksHandler k client ResponseWriter.fresh r s).calls.all
        (fun call => call.ctx == Context.Background) = true ∧
      (CreateBookHandler k client ResponseWriter.fresh r s).calls.all
        (fun call => call.ctx == Context.Background) = true) ∧
    (∀ ctx2 : Context,
      ListCategoriesHandler k client ResponseWriter.fresh { ctx := ctx2, Body := r.Body } s =
        ListCategoriesHandler k client ResponseWriter.fresh r s ∧
      CreateCategoryHandler k client ResponseWriter.fresh { ctx := ctx2, Body := r.Body } s =
        CreateCategoryHandler k client ResponseWriter.fresh r s ∧
      ListBooksHandler k client ResponseWriter.fresh { ctx := ctx2, Body := r.Body } s =
        ListBooksHandler k client ResponseWriter.fresh r s ∧
      CreateBookHandler k client ResponseWriter.fresh { ctx := ctx2, Body := r.Body } s =
        CreateBookHandler k client ResponseWriter.fresh r s) := by
  refine ⟨⟨?_, ?_, ?_, ?_⟩, fun ctx2 => ⟨rfl, rfl, rfl, rfl⟩⟩
  · rcases h : client.CategoryQueryAll Context.Background s with ⟨⟨cs, err⟩, s1⟩
    cases err <;> simp only [ListCategoriesHandler, h] <;> rfl
  · cases hd : k.DecodeCategory r.Body with
    | error e => simp only [CreateCategoryHandler, hd]; rfl
    | ok body =>
      rcases h : client.CategoryCreateSave Context.Background
        (CategoryCreate.new.SetName body.Name) s with ⟨⟨c, err⟩, s1⟩
      cases err <;> simp only [CreateCategoryHandler, hd, h] <;> rfl
  · rcases h : client.BookQueryAll Context.Background s with ⟨⟨bs, err⟩, s1⟩
    cases err <;> simp only [ListBooksHandler, h] <;> rfl
  · cases hd : k.DecodeBook r.Body with
    | error e => simp only [CreateBookHandler, hd]; rfl
    | ok body =>
      rcases h : client.CategoryGet Context.Background body.CategoryID s with ⟨⟨c, err⟩, s1⟩
      cases c with
      | none => simp only [CreateBookHandler, hd, h]; rfl
      | some cat =>
        rcases h2 : client.BookCreateSave Context.Background
          ((((BookCreate.new.SetTitle body.Title).SetYear body.Year).SetAuthor
            body.Author).SetCategoryID cat.ID |>.AddCategory cat) s1 with ⟨⟨b, err2⟩, s2⟩
        cases err2 <;> simp only [CreateBookHandler, hd, h, h2] <;> rfl

/-! ### The missing `return` of `CreateBookHandler` -/

/-- Claim C1, the code at scenario S5 (empty database, `category_id` 999):
the handler writes status 404 and then, having no `return`, goes on to
read `category.ID` of the nil category and panics; it never reaches the
insert, so the store is still the empty database. -/
theorem createBook_S5_panics_after_404 :
    scenarioCodec.DecodeBook requestS5.Body =
      Except.ok { ID := 0, Title := "X", Author := "Y", CategoryID := 999, Year := 2020,
                  CreatedAt := 0 } ∧
    (entClient.CategoryGet Context.Background 999 DB.empty).1 =
      (none, some (EntError.NotFound "category")) ∧
    (CreateBookHandler scenarioCodec entClient ResponseWriter.fresh requestS5
      DB.empty).panicked = true ∧
    (CreateBookHandler scenarioCodec entClient ResponseWriter.fresh requestS5
      DB.empty).w.Code = 404 ∧
    (CreateBookHandler scenarioCodec entClient ResponseWriter.fresh requestS5
      DB.empty).w.body = "Category with Id 999 Not Found: ent: category not found" ∧
    (CreateBookHandler scenarioCodec entClient ResponseWriter.fresh requestS5
      DB.empty).calls = [Call.CategoryGet Context.Background 999] ∧
    (CreateBookHandler scenarioCodec entClient ResponseWriter.fresh requestS5
      DB.empty).calls.any Call.IsBookInsert = false ∧
    (CreateBookHandler scenarioCodec entClient ResponseWriter.fresh requestS5
      DB.empty).store = DB.empty := by
  refine ⟨rfl, rfl, ?_, ?_, ?_, ?_, ?_, ?_⟩ <;> decide

/-- Claim C2, the code: whenever the body decodes and the category lookup
returns a nil category together with an error, `CreateBookHandler` ends in
a nil pointer dereference instead of returning. -/
theorem createBook_panics_on_failed_lookup {σ : Type} (k : Codec) (client : Client σ)
    (r : Request) (s s1 : σ) (body : Book) (e : EntError)
    (hdec : k.DecodeBook r.Body = Except.ok body)
    (hget : client.CategoryGet Context.Background body.CategoryID s = ((none, some e), s1)) :
    (CreateBookHandler k client ResponseWriter.fresh r s).panicked = true ∧
    (CreateBookHandler k client ResponseWriter.fresh r s).calls =
      [Call.CategoryGet Context.Background body.CategoryID] := by
  simp only [CreateBookHandler, hdec, hget]
  exact ⟨trivial, trivial⟩

/-- Witness for C2: the body of scenario S5 on the database after S1, where
only category 1 exists. -/
theorem createBook_panics_on_failed_lookup_witness :
    (CreateBookHandler scenarioCodec entClient ResponseWriter.fresh requestS5
      DB.afterS1).panicked = true ∧
    (CreateBookHandler scenarioCodec entClient ResponseWriter.fresh requestS5
      DB.afterS1).calls = [Call.CategoryGet Context.Background 999] :=
  createBook_panics_on_failed_lookup scenarioCodec entClient requestS5 DB.afterS1 DB.afterS1
    { ID := 0, Title := "X", Author := "Y", CategoryID := 999, Year := 2020, CreatedAt := 0 }
    (EntError.NotFound "category") rfl rfl

/-- The other three handlers never panic, whatever the client returns. -/
theorem other_handlers_never_panic {σ : Type} (k : Codec) (client : Client σ)
    (w : ResponseWriter) (r : Request) (s : σ) :
    (ListCategoriesHandler k client w r s).panicked = false ∧
    (CreateCategoryHandler k client w r s).panicked = false ∧
    (ListBooksHandler k client w r s).panicked = false := by
  refine ⟨?_, ?_, ?_⟩
  · rcases h : client.CategoryQueryAll Context.Background s with ⟨⟨cs, err⟩, s1⟩
    cases err <;> simp only [ListCategoriesHandler, h]
  · cases hd : k.DecodeCategory r.Body with
    | error e => simp only [CreateCategoryHandler, hd]
    | ok body =>
      rcases h : client.CategoryCreateSave Context.Background
        (CategoryCreate.new.SetName body.Name) s with ⟨⟨c, err⟩, s1⟩
      cases err <;> simp only [CreateCategoryHandler, hd, h]
  · rcases h : client.BookQueryAll Context.Background s with ⟨⟨bs, err⟩, s1⟩
    cases err <;> simp only [ListBooksHandler, h]

/-! ### The modelled store -/

theorem RoundTrip_background (db : DB) :
    db.RoundTrip Context.Background =
      if db.Up then none else some (EntError.Other "failed to connect to database") := by
  simp [DB.RoundTrip, Context.Cancelled]

/-- A failed category insert leaves the database as it was. -/
theorem CategoryCreateSave_error_store (ctx : Context) (b : CategoryCreate) (db : DB)
    (e : EntError) (h : (DB.CategoryCreateSave ctx b db).1.2 = some e) :
    (DB.CategoryCreateSave ctx b db).2 = db := by
  unfold DB.CategoryCreateSave at h ⊢
  cases hc : b.check with
  | some e1 => simp [hc]
  | none =>
    cases hr : db.RoundTrip ctx with
    | some e1 => simp [hr]
    | none =>
      by_cases hd : db.categories.any (fun c => c.Name == b.name.getD "") = true
      · simp only [hc, hr, hd, if_true]
      · simp only [hc, hr, hd] at h
        simp at h

/-- A failed book insert leaves the database as it was. -/
theorem BookCreateSave_error_store (ctx : Context) (b : BookCreate) (db : DB)
    (e : EntError) (h : (DB.BookCreateSave ctx b db).1.2 = some e) :
    (DB.BookCreateSave ctx b db).2 = db := by
  unfold DB.BookCreateSave at h ⊢
  cases hc : b.check with
  | some e1 => simp [hc]
  | none =>
    cases hr : db.RoundTrip ctx with
    | some e1 => simp [hr]
    | none =>
      by_cases hd : b.categoryIDs.all
          (fun cid => db.categories.any (fun c => c.ID == cid)) = true
      · simp only [hc, hr, hd] at h
        simp at h
      · simp only [hc, hr, hd]
        simp

/-- The category insert for an empty name fails in the `NotEmpty` check. -/
theorem CategoryCreateSave_empty_name (ctx : Context) (db : DB) :
    ∃ e, category.NameValidator "" = some e ∧
      DB.CategoryCreateSave ctx (CategoryCreate.new.SetName "") db = ((none, some e), db) := by
  refine ⟨_, rfl, ?_⟩
  rfl

/-- The category insert for a name already in the table fails. -/
theorem CategoryCreateSave_duplicate (ctx : Context) (db : DB) (c : Category)
    (hc : c ∈ db.categories) :
    ∃ e, DB.CategoryCreateSave ctx (CategoryCreate.new.SetName c.Name) db =
      ((none, some e), db) ∧
      (db.RoundTrip ctx = none → c.Name.length ≠ 0 → ∃ msg, e = EntError.Constraint msg) := by
  have hany : db.categories.any (fun x => x.Name == c.Name) = true := by
    rw [List.any_eq_true]
    exact ⟨c, hc, by simp⟩
  unfold DB.CategoryCreateSave
  cases hk : (CategoryCreate.new.SetName c.Name).check with
  | some e1 =>
    refine ⟨e1, rfl, ?_⟩
    intro _ hlen
    exfalso
    simp [CategoryCreate.check, CategoryCreate.SetName, category.NameValidator, NotEmpty,
      hlen] at hk
  | none =>
    cases hr : db.RoundTrip ctx with
    | some e1 =>
      refine ⟨e1, rfl, ?_⟩
      intro h
      simp at h
    | none =>
      have hname : (CategoryCreate.new.SetName c.Name).name.getD "" = c.Name := rfl
      simp only [hname, hany, if_true]
      exact ⟨_, rfl, fun _ _ => ⟨_, rfl⟩⟩

/-- A successful lookup returns a row of the table with the id asked for. -/
theorem CategoryGet_some (ctx : Context) (id : Int) (db : DB) (cat : Category)
    (h : (DB.CategoryGet ctx id db).1 = (some cat, none)) :
    cat ∈ db.categories ∧ cat.ID = id ∧
      DB.CategoryGet ctx id db = ((some cat, none), db) := by
  unfold DB.CategoryGet at h ⊢
  cases hr : db.RoundTrip ctx with
  | some e1 => simp [hr] at h
  | none =>
    simp only [hr] at h ⊢
    have hsub : ∀ x ∈ (db.categories.filter (fun c => c.ID == id)).take 2,
        x ∈ db.categories ∧ x.ID = id := by
      intro x hx
      have hx1 := List.mem_of_mem_take hx
      rw [List.mem_filter] at hx1
      exact ⟨hx1.1, by simpa using hx1.2⟩
    generalize (db.categories.filter (fun c => c.ID == id)).take 2 = l at h hsub ⊢
    match l, h, hsub with
    | [], h, _ => simp at h
    | [c], h, hsub =>
      simp at h
      subst h
      have := hsub c (by simp)
      exact ⟨this.1, this.2, rfl⟩
    | _ :: _ :: _, h, _ => simp at h

/-- The checks of a book insert reject an empty title, an empty author and
a non-positive year. -/
theorem BookCreate_check_invalid (title author : String) (year cid : Int) (ids : List Int)
    (hbad : title = "" ∨ author = "" ∨ year ≤ 0) :
    ∃ name msg, BookCreate.check
      { title := some title, year := some year, author := some author,
        category_id := some cid, categoryIDs := ids } = some (EntError.Validation name msg) := by
  unfold BookCreate.check
  by_cases ht : title.length = 0
  · simp only [NotEmpty, ht, if_true]
    exact ⟨_, _, rfl⟩
  · by_cases ha : author.length = 0
    · simp only [NotEmpty, ht, ha, if_true, if_false]
      exact ⟨_, _, rfl⟩
    · have hy : year ≤ 0 := by
        rcases hbad with h | h | h
        · exact absurd (by simp [h]) ht
        · exact absurd (by simp [h]) ha
        · exact h
      simp only [NotEmpty, Positive, ht, ha, hy, if_true, if_false]
      exact ⟨_, _, rfl⟩

/-! ### The create handlers, path by path -/

theorem CreateCategoryHandler_save_error {σ : Type} (k : Codec) (client : Client σ)
    (r : Request) (s s1 : σ) (body : Category) (c : Option Category) (e : EntError)
    (hdec : k.DecodeCategory r.Body = Except.ok body)
    (hsave : client.CategoryCreateSave Context.Background
      (CategoryCreate.new.SetName body.Name) s = ((c, some e), s1)) :
    CreateCategoryHandler k client ResponseWriter.fresh r s =
      { w := (ResponseWriter.fresh.WriteHeader StatusInternalServerError).Write e.Error,
        store := s1,
        calls := [Call.CategoryCreateSave Context.Background
          (CategoryCreate.new.SetName body.Name)],
        panicked := false } := by
  simp only [CreateCategoryHandler, hdec, hsave]

theorem CreateBookHandler_save_error {σ : Type} (k : Codec) (client : Client σ)
    (r : Request) (s s1 s2 : σ) (body : Book) (cat : Category) (bk : Option Book)
    (e : EntError)
    (hdec : k.DecodeBook r.Body = Except.ok body)
    (hget : client.CategoryGet Context.Background body.CategoryID s = ((some cat, none), s1))
    (hsave : client.BookCreateSave Context.Background (bookBuilder body cat) s1 =
      ((bk, some e), s2)) :
    CreateBookHandler k client ResponseWriter.fresh r s =
      { w := (ResponseWriter.fresh.WriteHeader StatusInternalServerError).Write e.Error,
        store := s2,
        calls := [Call.CategoryGet Context.Background body.CategoryID,
          Call.BookCreateSave Context.Background (bookBuilder body cat)],
        panicked := false } := by
  have hb : ((((BookCreate.new.SetTitle body.Title).SetYear body.Year).SetAuthor
      body.Author).SetCategoryID cat.ID).AddCategory cat = bookBuilder body cat := rfl
  simp only [CreateBookHandler, hdec, hget, hb, hsave]
  rfl

theorem CreateBookHandler_save_ok {σ : Type} (k : Codec) (client : Client σ)
    (r : Request) (s s1 s2 : σ) (body : Book) (cat : Category) (bk : Option Book)
    (hdec : k.DecodeBook r.Body = Except.ok body)
    (hget : client.CategoryGet Context.Background body.CategoryID s = ((some cat, none), s1))
    (hsave : client.BookCreateSave Context.Background (bookBuilder body cat) s1 =
      ((bk, none), s2)) :
    CreateBookHandler k client ResponseWriter.fresh r s =
      { w := (ResponseWriter.fresh.HeaderSet "Content-Type" "application/json").Write
          (k.SprintBook bk),
        store := s2,
        calls := [Call.CategoryGet Context.Background body.CategoryID,
          Call.BookCreateSave Context.Background (bookBuilder body cat)],
        panicked := false } := by
  have hb : ((((BookCreate.new.SetTitle body.Title).SetYear body.Year).SetAuthor
      body.Author).SetCategoryID cat.ID).AddCategory cat = bookBuilder body cat := rfl
  simp only [CreateBookHandler, hdec, hget, hb, hsave]
  rfl

/-! ### Validation and conflicts on `POST /categories` -/

/-- Counterexample to C3 as stated: at scenario S3 the body decodes to the
empty name and `CreateCategoryHandler` answers 500, not 400. -/
theorem createCategory_S3_is_500 :
    scenarioCodec.DecodeCategory requestS3.Body =
      Except.ok { ID := 0, Name := "", CreatedAt := 0 } ∧
    (CreateCategoryHandler scenarioCodec entClient ResponseWriter.fresh requestS3
      DB.empty).w.Code = 500 ∧
    (CreateCategoryHandler scenarioCodec entClient ResponseWriter.fresh requestS3
      DB.empty).w.Code ≠ 400 := by
  refine ⟨rfl, ?_, ?_⟩ <;> decide

/-- Claim C3, amended: for every `POST /categories` request whose decoded
body has the empty name, `CreateCategoryHandler` responds with status 500,
the body being the message of the failure of `NameValidator` (`NotEmpty`),
and no Category is inserted: the database is unchanged. -/
theorem createCategory_empty_name_500 (k : Codec) (r : Request) (db : DB) (body : Category)
    (hdec : k.DecodeCategory r.Body = Except.ok body) (hname : body.Name = "") :
    (CreateCategoryHandler k entClient ResponseWriter.fresh r db).w.Code = 500 ∧
    (∃ e, category.NameValidator body.Name = some e ∧
      (CreateCategoryHandler k entClient ResponseWriter.fresh r db).w.body = e.Error) ∧
    (CreateCategoryHandler k entClient ResponseWriter.fresh r db).store = db ∧
    (CreateCategoryHandler k entClient ResponseWriter.fresh r db).panicked = false := by
  obtain ⟨e, he, hsave⟩ := CategoryCreateSave_empty_name Context.Background db
  have hsave2 : entClient.CategoryCreateSave Context.Background
      (CategoryCreate.new.SetName body.Name) db = ((none, some e), db) := by
    rw [hname]
    exact hsave
  rw [CreateCategoryHandler_save_error k entClient r db db body none e hdec hsave2]
  refine ⟨rfl, ⟨e, ?_, string_empty_append _⟩, rfl, rfl⟩
  rw [hname]
  exact he

/-- Witness for C3 amended: scenario S3 on the empty database. -/
theorem createCategory_empty_name_500_witness :
    (CreateCategoryHandler scenarioCodec entClient ResponseWriter.fresh requestS3
      DB.empty).w.Code = 500 ∧
    (CreateCategoryHandler scenarioCodec entClient ResponseWriter.fresh requestS3
      DB.empty).store = DB.empty :=
  ⟨(createCategory_empty_name_500 scenarioCodec requestS3 DB.empty
      { ID := 0, Name := "", CreatedAt := 0 } rfl rfl).1,
    (createCategory_empty_name_500 scenarioCodec requestS3 DB.empty
      { ID := 0, Name := "", CreatedAt := 0 } rfl rfl).2.2.1⟩

/-- Counterexample to C4 as stated: at scenario S2 the store already holds
`fiction`, the body names `fiction`, and `CreateCategoryHandler` answers
500, not 409. -/
theorem createCategory_S2_is_500 :
    scenarioCodec.DecodeCategory requestS2.Body =
      Except.ok { ID := 0, Name := "fiction", CreatedAt := 0 } ∧
    DB.afterS1.categories = [{ ID := 1, Name := "fiction", CreatedAt := 0 }] ∧
    (CreateCategoryHandler scenarioCodec entClient ResponseWriter.fresh requestS2
      DB.afterS1).w.Code = 500 ∧
    (CreateCategoryHandler scenarioCodec entClient ResponseWriter.fresh requestS2
      DB.afterS1).w.Code ≠ 409 := by
  refine ⟨rfl, rfl, ?_, ?_⟩ <;> decide

/-- Claim C4, amended: for every store that already contains a Category
named `n` and every `POST /categories` request whose decoded body has
name `n`, `CreateCategoryHandler` responds with status 500, the body being
the message of the error the insert returned (the unique-constraint failure
when the name is non-empty and the engine reachable), and the store is
unchanged. -/
theorem createCategory_duplicate_500 (k : Codec) (r : Request) (db : DB) (body c : Category)
    (hdec : k.DecodeCategory r.Body = Except.ok body)
    (hc : c ∈ db.categories) (hn : c.Name = body.Name) :
    (CreateCategoryHandler k entClient ResponseWriter.fresh r db).w.Code = 500 ∧
    (∃ e, (entClient.CategoryCreateSave Context.Background
        (CategoryCreate.new.SetName body.Name) db).1.2 = some e ∧
      (CreateCategoryHandler k entClient ResponseWriter.fresh r db).w.body = e.Error ∧
      (db.Up = true → body.Name.length ≠ 0 → ∃ msg, e = EntError.Constraint msg)) ∧
    (CreateCategoryHandler k entClient ResponseWriter.fresh r db).store = db ∧
    (CreateCategoryHandler k entClient ResponseWriter.fresh r db).store.categories =
      db.categories := by
  obtain ⟨e, hsave, hkind⟩ := CategoryCreateSave_duplicate Context.Background db c hc
  rw [hn] at hsave hkind
  have hsave2 : entClient.CategoryCreateSave Context.Background
      (CategoryCreate.new.SetName body.Name) db = ((none, some e), db) := hsave
  rw [CreateCategoryHandler_save_error k entClient r db db body none e hdec hsave2]
  refine ⟨rfl, ⟨e, ?_, string_empty_append _, ?_⟩, rfl, rfl⟩
  · rw [hsave2]
  · intro hup hlen
    apply hkind _ hlen
    rw [RoundTrip_background, hup]
    rfl

/-- Witness for C4 amended: scenario S2 on the database after S1. -/
theorem createCategory_duplicate_500_witness :
    (CreateCategoryHandler scenarioCodec entClient ResponseWriter.fresh requestS2
      DB.afterS1).w.Code = 500 ∧
    (CreateCategoryHandler scenarioCodec entClient ResponseWriter.fresh requestS2
      DB.afterS1).store = DB.afterS1 :=
  ⟨(createCategory_duplicate_500 scenarioCodec requestS2 DB.afterS1
      { ID := 0, Name := "fiction", CreatedAt := 0 }
      { ID := 1, Name := "fiction", CreatedAt := 0 } rfl (by decide) rfl).1,
    (createCategory_duplicate_500 scenarioCodec requestS2 DB.afterS1
      { ID := 0, Name := "fiction", CreatedAt := 0 }
      { ID := 1, Name := "fiction", CreatedAt := 0 } rfl (by decide) rfl).2.2.1⟩

/-! ### Validation and association on `POST /` -/

/-- Counterexample to C5 as stated: at scenario S6 the body references the
existing category 1 and has year -1, and `CreateBookHandler` answers 500,
not 400. -/
theorem createBook_S6_is_500 :
    scenarioCodec.DecodeBook requestS6.Body =
      Except.ok { ID := 0, Title := "X", Author := "Y", CategoryID := 1, Year := -1,
                  CreatedAt := 0 } ∧
    (entClient.CategoryGet Context.Background 1 DB.afterS1).1 =
      (some { ID := 1, Name := "fiction", CreatedAt := 0 }, none) ∧
    (CreateBookHandler scenarioCodec entClient ResponseWriter.fresh requestS6
      DB.afterS1).w.Code = 500 ∧
    (CreateBookHandler scenarioCodec entClient ResponseWriter.fresh requestS6
      DB.afterS1).w.Code ≠ 400 := by
  refine ⟨rfl, rfl, ?_, ?_⟩ <;> decide

/-- Claim C5, amended: for every `POST /` request whose decoded body
references an existing category (the lookup succeeds) but has an empty
title, an empty author, or year <= 0, `CreateBookHandler` responds with
status 500; the insert it issued failed in the pre-insert checks with a
validation error `e`, and the body is exactly the message of that `e`; no
Book row is inserted: the database is unchanged. -/
theorem createBook_invalid_input_500 (k : Codec) (r : Request) (db : DB) (body : Book)
    (cat : Category)
    (hdec : k.DecodeBook r.Body = Except.ok body)
    (hget : (entClient.CategoryGet Context.Background body.CategoryID db).1 = (some cat, none))
    (hbad : body.Title = "" ∨ body.Author = "" ∨ body.Year ≤ 0) :
    (CreateBookHandler k entClient ResponseWriter.fresh r db).w.Code = 500 ∧
    (∃ e : EntError,
      (entClient.BookCreateSave Context.Background
        { title := some body.Title, year := some body.Year, author := some body.Author,
          category_id := some cat.ID, categoryIDs := [cat.ID] } db).1 = (none, some e) ∧
      BookCreate.check
        { title := some body.Title, year := some body.Year, author := some body.Author,
          category_id := some cat.ID, categoryIDs := [cat.ID] } = some e ∧
      (∃ name msg, e = EntError.Validation name msg) ∧
      (CreateBookHandler k entClient ResponseWriter.fresh r db).w.body = e.Error) ∧
    (CreateBookHandler k entClient ResponseWriter.fresh r db).calls =
      [Call.CategoryGet Context.Background body.CategoryID,
        Call.BookCreateSave Context.Background
          { title := some body.Title, year := some body.Year, author := some body.Author,
            category_id := some cat.ID, categoryIDs := [cat.ID] }] ∧
    (CreateBookHandler k entClient ResponseWriter.fresh r db).store = db ∧
    (CreateBookHandler k entClient ResponseWriter.fresh r db).store.books = db.books ∧
    (CreateBookHandler k entClient ResponseWriter.fresh r db).panicked = false := by
  have hget2 := (CategoryGet_some Context.Background body.CategoryID db cat hget).2.2
  obtain ⟨name, msg, hchk⟩ :=
    BookCreate_check_invalid body.Title body.Author body.Year cat.ID [cat.ID] hbad
  have hchk2 : (bookBuilder body cat).check = some (EntError.Validation name msg) := hchk
  have hsave : entClient.BookCreateSave Context.Background (bookBuilder body cat) db =
      ((none, some (EntError.Validation name msg)), db) := by
    show DB.BookCreateSave Context.Background (bookBuilder body cat) db = _
    unfold DB.BookCreateSave
    simp only [hchk2]
  rw [CreateBookHandler_save_error k entClient r db db db body cat none _ hdec hget2 hsave]
  refine ⟨rfl, ⟨EntError.Validation name msg, ?_, hchk, ⟨name, msg, rfl⟩,
    string_empty_append _⟩, rfl, rfl, rfl, rfl⟩
  show (entClient.BookCreateSave Context.Background (bookBuilder body cat) db).1 = _
  rw [hsave]

/-- Witness for C5 amended: scenario S6 on the database after S1; the body
is the message of the `Positive` failure on `year`. -/
theorem createBook_invalid_input_500_witness :
    (CreateBookHandler scenarioCodec entClient ResponseWriter.fresh requestS6
      DB.afterS1).w.Code = 500 ∧
    (CreateBookHandler scenarioCodec entClient ResponseWriter.fresh requestS6
      DB.afterS1).store = DB.afterS1 ∧
    (∃ e : EntError, Positive "year" (-1) = some e ∧
      (CreateBookHandler scenarioCodec entClient ResponseWriter.fresh requestS6
        DB.afterS1).w.body = e.Error) :=
  have h := createBook_invalid_input_500 scenarioCodec requestS6 DB.afterS1
    { ID := 0, Title := "X", Author := "Y", CategoryID := 1, Year := -1, CreatedAt := 0 }
    { ID := 1, Name := "fiction", CreatedAt := 0 } rfl rfl
    (Or.inr (Or.inr (by decide)))
  ⟨h.1, h.2.2.2.1,
    match h.2.1 with
    | ⟨e, _, hchk, _, hbody⟩ => ⟨e, hchk, hbody⟩⟩

/-- A successful book insert appends the Book built from the builder and
one association row per id on the `category` edge. -/
theorem BookCreateSave_ok (ctx : Context) (b : BookCreate) (db : DB) (bk : Book)
    (h : (DB.BookCreateSave ctx b db).1 = (some bk, none)) :
    bk = { ID := db.nextBookID, Title := b.title.getD "", Author := b.author.getD "",
           CategoryID := b.category_id.getD 0, Year := b.year.getD 0, CreatedAt := db.Now } ∧
    (DB.BookCreateSave ctx b db).2.books = db.books ++ [bk] ∧
    (DB.BookCreateSave ctx b db).2.category_books =
      db.category_books ++ b.categoryIDs.map (fun cid => (cid, bk.ID)) ∧
    (DB.BookCreateSave ctx b db).2.categories = db.categories := by
  unfold DB.BookCreateSave at h ⊢
  cases hc : b.check with
  | some e1 => simp [hc] at h
  | none =>
    cases hr : db.RoundTrip ctx with
    | some e1 => simp [hc, hr] at h
    | none =>
      by_cases hd : b.categoryIDs.all
          (fun cid => db.categories.any (fun c => c.ID == cid)) = true
      · simp only [hc, hr, hd, if_true] at h ⊢
        simp only [Prod.mk.injEq, Option.some.injEq, and_true] at h
        subst h
        simp
      · simp only [hc, hr, hd] at h
        simp at h

/-- Claim C6: when the body decodes and the category lookup succeeds with
Category `cat`, `cat` is a row of the store whose id is the requested
`category_id`; the handler issues, after the lookup, exactly one insert,
carrying the title, year and author of the body, `category_id = cat.ID`
and the one association to `cat`; and when that insert succeeds with Book
`bk`, the reply is 200, `bk` is appended to the books with those fields,
exactly one association row `(cat.ID, bk.ID)` is appended, and (the id of
`bk` being new to the association table) it is the only row referencing
`bk`. -/
theorem createBook_association (k : Codec) (r : Request) (db : DB) (body : Book)
    (cat : Category)
    (hdec : k.DecodeBook r.Body = Except.ok body)
    (hget : (entClient.CategoryGet Context.Background body.CategoryID db).1 =
      (some cat, none)) :
    cat ∈ db.categories ∧ cat.ID = body.CategoryID ∧
    (CreateBookHandler k entClient ResponseWriter.fresh r db).calls =
      [Call.CategoryGet Context.Background body.CategoryID,
        Call.BookCreateSave Context.Background
          { title := some body.Title, year := some body.Year, author := some body.Author,
            category_id := some cat.ID, categoryIDs := [cat.ID] }] ∧
    (CreateBookHandler k entClient ResponseWriter.fresh r db).panicked = false ∧
    (∀ bk : Book,
      (entClient.BookCreateSave Context.Background
        { title := some body.Title, year := some body.Year, author := some body.Author,
          category_id := some cat.ID, categoryIDs := [cat.ID] } db).1 = (some bk, none) →
      (CreateBookHandler k entClient ResponseWriter.fresh r db).w.Code = 200 ∧
      (CreateBookHandler k entClient ResponseWriter.fresh r db).store.books =
        db.books ++ [bk] ∧
      (CreateBookHandler k entClient ResponseWriter.fresh r db).store.category_books =
        db.category_books ++ [(cat.ID, bk.ID)] ∧
      bk.Title = body.Title ∧ bk.Author = body.Author ∧ bk.Year = body.Year ∧
      bk.CategoryID = cat.ID ∧ bk.CategoryID = body.CategoryID ∧
      ((∀ row ∈ db.category_books, row.2 ≠ bk.ID) →
        (CreateBookHandler k entClient ResponseWriter.fresh r db).store.category_books.filter
          (fun row => row.2 == bk.ID) = [(cat.ID, bk.ID)])) := by
  obtain ⟨hmem, hid, hget2⟩ := CategoryGet_some Context.Background body.CategoryID db cat hget
  have hget3 : entClient.CategoryGet Context.Background body.CategoryID db =
      ((some cat, none), db) := hget2
  refine ⟨hmem, hid, ?_, ?_, ?_⟩
  · rcases hs : entClient.BookCreateSave Context.Background (bookBuilder body cat) db with
      ⟨⟨bk, err⟩, s2⟩
    cases err with
    | none => rw [CreateBookHandler_save_ok k entClient r db db s2 body cat bk hdec hget3 hs]; rfl
    | some e =>
      rw [CreateBookHandler_save_error k entClient r db db s2 body cat bk e hdec hget3 hs]; rfl
  · rcases hs : entClient.BookCreateSave Context.Background (bookBuilder body cat) db with
      ⟨⟨bk, err⟩, s2⟩
    cases err with
    | none => rw [CreateBookHandler_save_ok k entClient r db db s2 body cat bk hdec hget3 hs]
    | some e =>
      rw [CreateBookHandler_save_error k entClient r db db s2 body cat bk e hdec hget3 hs]
  · intro bk hbk
    have hbk2 : (DB.BookCreateSave Context.Background (bookBuilder body cat) db).1 =
        (some bk, none) := hbk
    obtain ⟨hval, hbooks, hrows, _⟩ :=
      BookCreateSave_ok Context.Background (bookBuilder body cat) db bk hbk2
    have hs : entClient.BookCreateSave Context.Background (bookBuilder body cat) db =
        ((some bk, none), (DB.BookCreateSave Context.Background (bookBuilder body cat) db).2) := by
      show DB.BookCreateSave Context.Background (bookBuilder body cat) db = _
      rw [← hbk2]
    rw [CreateBookHandler_save_ok k entClient r db db _ body cat (some bk) hdec hget3 hs]
    have hrows2 : (DB.BookCreateSave Context.Background (bookBuilder body cat) db).2.category_books
        = db.category_books ++ [(cat.ID, bk.ID)] := hrows
    have hT : bk.Title = body.Title := by rw [hval]; rfl
    have hA : bk.Author = body.Author := by rw [hval]; rfl
    have hY : bk.Year = body.Year := by rw [hval]; rfl
    have hC : bk.CategoryID = cat.ID := by rw [hval]; rfl
    refine ⟨rfl, hbooks, hrows2, hT, hA, hY, hC, hC.trans hid, ?_⟩
    intro hfresh
    show List.filter (fun row => row.2 == bk.ID)
      (DB.BookCreateSave Context.Background (bookBuilder body cat) db).2.category_books = _
    rw [hrows2, List.filter_append]
    have hnil : List.filter (fun row : Int × Int => row.2 == bk.ID) db.category_books = [] := by
      rw [List.filter_eq_nil_iff]
      intro row hrow
      simpa using hfresh row hrow
    rw [hnil]
    simp

/-- Witness for C6: scenario S4 on the database after S1. -/
theorem createBook_association_witness :
    (CreateBookHandler scenarioCodec entClient ResponseWriter.fresh requestS4
      DB.afterS1).w.Code = 200 ∧
    (CreateBookHandler scenarioCodec entClient ResponseWriter.fresh requestS4
      DB.afterS1).store.books =
        [{ ID := 1, Title := "Dune", Author := "Herbert", CategoryID := 1, Year := 1965,
           CreatedAt := 0 }] ∧
    (CreateBookHandler scenarioCodec entClient ResponseWriter.fresh requestS4
      DB.afterS1).store.category_books = [(1, 1)] ∧
    (CreateBookHandler scenarioCodec entClient ResponseWriter.fresh requestS4
      DB.afterS1).store.category_books.filter (fun row => row.2 == 1) = [(1, 1)] :=
  have h := (createBook_association scenarioCodec requestS4 DB.afterS1
    { ID := 0, Title := "Dune", Author := "Herbert", CategoryID := 1, Year := 1965,
      CreatedAt := 0 }
    { ID := 1, Name := "fiction", CreatedAt := 0 } rfl rfl).2.2.2.2
    { ID := 1, Title := "Dune", Author := "Herbert", CategoryID := 1, Year := 1965,
      CreatedAt := 0 } rfl
  ⟨h.1, h.2.1, h.2.2.1, h.2.2.2.2.2.2.2.2 (by decide)⟩

end GoBooks
